import Mathlib

/-!
Shallow embedding of the Kyra backend (chat / scan / single-file kyra routes,
memory store adapter, completion-reply extraction, page-text extraction),
together with theorems settling the specification claims.

Conventions of the embedding:
* The remote store (supabase) is modelled as an explicit row list plus a clock;
  the client library resolves every query with a result object and does not
  reject on a store error, so store operations here are total and take a
  Boolean describing whether the store succeeded.
* Request handlers are pure functions of the request body, the store state and
  the outcomes of the external calls (completion API, page fetch); they return
  the HTTP response, the new store state and the list of server-side log lines.
* Machine-level JS details that claims depend on are kept: the falsiness of
  the empty string, optional chaining, the or-default on the reply, and the
  unguarded property access in the two askKyra variants.
-/

namespace Kyra

/-- One message of the conversation memory as selected by getMemory
(columns role, content) and as fed to the prompt assembler. -/
structure PromptMessage where
  role : String
  content : String
deriving DecidableEq

/-- Content of a message sent to the completion API. The first askKyra
variant passes the raw memory element (a role/content record) as the
content field instead of a string; the str/obj split records that. -/
inductive MsgContent where
  | str (s : String)
  | obj (m : PromptMessage)
deriving DecidableEq

/-- A message of the list handed to openai.chat.completions.create. -/
structure ApiMessage where
  role : String
  content : MsgContent
deriving DecidableEq

/-- A row of the memories table (columns user, role, content, created_at). -/
structure Turn where
  user : String
  role : String
  content : String
  createdAt : Nat
deriving DecidableEq

/-- The memories table plus the store clock used to stamp created_at.
Rows sit in insertion order; every insert stamps strictly increasing clock
values, so insertion order agrees with created_at order. -/
structure StoreState where
  rows : List Turn
  clock : Nat
deriving DecidableEq

/-- The rows of the memories table belonging to one user
(the eq filter of the getMemory query). -/
def userRows (s : StoreState) (user : String) : List Turn :=
  s.rows.filter (fun t => t.user = user)

/-- The store side of the getMemory query: filter by user, order by
created_at descending, limit. Rows are kept in insertion order with
strictly increasing created_at, so newest-first order is the reverse of
insertion order. -/
def selectNewest (s : StoreState) (user : String) (limit : Nat) : List Turn :=
  (userRows s user).reverse.take limit

/-- Embeds getMemory of services/memory.js: select role, content for the
user, newest first, limit 8, then data.reverse() when data is non-null and
the empty list when the query failed (data null). The supabase client
resolves with a data/error record and never throws, so the function is
total; ok says whether the store query succeeded. -/
def getMemory (s : StoreState) (user : String) (ok : Bool) : List PromptMessage :=
  if ok then ((selectNewest s user 8).map (fun t => ⟨t.role, t.content⟩)).reverse
  else []

/-- Embeds saveMemory of services/memory.js: one insert of two rows, the
user turn first and the assistant turn second. The insert result object is
discarded by the source; on store failure (ok false) nothing is written and
the error is returned to nobody. Each row is stamped with the current
store time. -/
def saveMemory (s : StoreState) (user input reply : String) (ok : Bool) :
    StoreState × Option String :=
  if ok then
    ({ rows := s.rows ++
         [⟨user, "user", input, s.clock⟩, ⟨user, "assistant", reply, s.clock + 1⟩],
       clock := s.clock + 2 }, none)
  else (s, some "StoreError")

/-- System prompt of the first askKyra variant (services/openai.js,
variant with memory.map). -/
def kyraSystemPrompt1 (user : String) : String :=
  "\nYou are KYRA, a friendly, intelligent AI assistant.\nUser name: " ++ user ++
  "\nBehave like Jarvis.\nExplain decisions clearly.\nThink step by step.\nAct as mentor + strategist.\nNever claim real-world actions.\n"

/-- System prompt of the second askKyra variant (services/openai.js,
variant that spreads memory verbatim). -/
def kyraSystemPrompt2 (user : String) : String :=
  "\nYou are KYRA, a highly intelligent AI assistant for " ++ user ++
  ".\nBehave like Jarvis.\nExplain reasoning step by step.\nAct as mentor, strategist, and problem solver.\nNever claim to take actions.\n"

/-- Message list built by the first askKyra variant: system prompt, then
memory.map with every element coerced to role user and the element itself
placed in the content field, then the new user message. -/
def askKyraMessages1 (user message : String) (memory : List PromptMessage) :
    List ApiMessage :=
  ⟨"system", .str (kyraSystemPrompt1 user)⟩ ::
    (memory.map (fun m => (⟨"user", .obj m⟩ : ApiMessage)) ++
      [⟨"user", .str message⟩])

/-- Message list built by the second askKyra variant: system prompt, then
the memory records spread verbatim, then the new user message. -/
def askKyraMessages2 (user message : String) (memory : List PromptMessage) :
    List ApiMessage :=
  ⟨"system", .str (kyraSystemPrompt2 user)⟩ ::
    (memory.map (fun m => (⟨m.role, .str m.content⟩ : ApiMessage)) ++
      [⟨"user", .str message⟩])

/-- The message object inside one choice of a completion response.
content is nullable in the API schema. -/
structure ApiChoiceMsg where
  content : Option String
deriving DecidableEq

/-- One choice of a completion response; a malformed response may lack the
message object. -/
structure ApiChoice where
  message : Option ApiChoiceMsg
deriving DecidableEq

/-- A parsed completion-API response body. -/
structure ApiResponse where
  choices : List ApiChoice
deriving DecidableEq

/-- Reply extraction of both askKyra variants:
completion.choices[0].message.content with no guard. Reading a property of
a missing choice or missing message throws a TypeError, modelled as error;
a present but null content is returned as-is (ok none). -/
def extractReply (r : ApiResponse) : Except String (Option String) :=
  match r.choices.head? with
  | none => .error "TypeError: choices[0] is undefined"
  | some c =>
    match c.message with
    | none => .error "TypeError: message is undefined"
    | some m => .ok m.content

/-- Reply extraction of the single-file kyra route:
data.choices?.[0]?.message?.content || sentinel. Optional chaining makes
every missing step yield undefined, and the or-default also replaces the
empty string (falsy in JS) with the sentinel. -/
def kyraExtract (r : ApiResponse) : String :=
  match r.choices.head? with
  | none => "Kyra is thinking…"
  | some c =>
    match c.message with
    | none => "Kyra is thinking…"
    | some m =>
      match m.content with
      | none => "Kyra is thinking…"
      | some s => if s = "" then "Kyra is thinking…" else s

/-- The non-empty content of the first choice, when the response carries
one. -/
def extractContent? (r : ApiResponse) : Option String :=
  match r.choices.head? with
  | none => none
  | some c =>
    match c.message with
    | none => none
    | some m =>
      match m.content with
      | none => none
      | some s => if s = "" then none else some s

/-- Body of an HTTP response of the three routes. -/
inductive RouteBody where
  | reply (text : String)
  | analysis (text : String)
  | errorMsg (text : String)
deriving DecidableEq

/-- An HTTP response: status code and JSON body. -/
structure RouteResponse where
  status : Nat
  body : RouteBody
deriving DecidableEq

/-- Body of a chat request after express.json parsing; absent fields are
none, and the empty string is falsy under the !message check. -/
structure ChatRequest where
  userField : Option String
  messageField : Option String
deriving DecidableEq

/-- Result of one chat request: response, store state after the request,
and the console.error log lines written while handling it. -/
structure ChatOutcome where
  resp : RouteResponse
  store : StoreState
  logged : List String
deriving DecidableEq

/-- Embeds the chat route (routes/chat.js): default user Mohit, validate
message, getMemory, askKyra (second variant) on the assembled messages,
saveMemory, reply. A completion failure is caught, logged with
console.error and mapped to 500 Kyra thinking failed. getMemory and
saveMemory resolve without throwing, so the store outcome flags cannot
reach the catch. complete is the completion call on the assembled message
list: ok carries the extracted reply text, error a thrown failure. -/
def chatRoute (store : StoreState) (req : ChatRequest) (memOk : Bool)
    (complete : List ApiMessage → Except String String) (persistOk : Bool) :
    ChatOutcome :=
  let user := req.userField.getD "Mohit"
  match req.messageField with
  | none => ⟨⟨400, .errorMsg "Message required"⟩, store, []⟩
  | some message =>
    if message = "" then ⟨⟨400, .errorMsg "Message required"⟩, store, []⟩
    else
      let memory := getMemory store user memOk
      match complete (askKyraMessages2 user message memory) with
      | .error e => ⟨⟨500, .errorMsg "Kyra thinking failed"⟩, store, [e]⟩
      | .ok reply => ⟨⟨200, .reply reply⟩, (saveMemory store user message reply persistOk).1, []⟩

/-- A parsed HTML node: a text node or an element with children.
The body handed to the extractor is such a node. -/
inductive HNode where
  | text (s : String)
  | elem (tag : String) (children : List HNode)

mutual

/-- The cheerio text() semantics used by fetchWebsite: the concatenated
text of every descendant text node in document order, with no filtering of
script or style elements (cheerio concatenates those too). -/
def textAll : HNode → String
  | .text s => s
  | .elem _ cs => textAllList cs

/-- textAll over a child list. -/
def textAllList : List HNode → String
  | [] => ""
  | n :: ns => textAll n ++ textAllList ns

end

mutual

/-- Modelled from the spec: text extraction that excludes script and style
elements (the visible-text semantics the spec ascribes to the extractor,
for comparison with the textAll semantics the source actually uses). -/
def textVisible : HNode → String
  | .text s => s
  | .elem tag cs => if tag = "script" ∨ tag = "style" then "" else textVisibleList cs

/-- textVisible over a child list. -/
def textVisibleList : List HNode → String
  | [] => ""
  | n :: ns => textVisible n ++ textVisibleList ns

end

/-- The whitespace class of the replace regexp, restricted to the ASCII
whitespace characters relevant here. -/
def isWs (c : Char) : Bool :=
  c = ' ' || c = '\t' || c = '\n' || c = '\r' || c = '\x0b' || c = '\x0c'

/-- One pass of replace with the whitespace-run regexp and a single
space: the flag says whether the previous character was whitespace, so a
run contributes exactly one space at its first character. -/
def collapseGo : List Char → Bool → List Char
  | [], _ => []
  | c :: cs, prevWs =>
    if isWs c then
      if prevWs then collapseGo cs true else ' ' :: collapseGo cs true
    else c :: collapseGo cs false

/-- replace of every whitespace run by a single space. -/
def collapseWs (s : String) : String :=
  (collapseGo s.toList false).asString

/-- Embeds fetchWebsite (utils/fetchWebsite.js) after a successful fetch
and parse: body text via cheerio text(), whitespace runs collapsed,
slice(0, 4000). JS slice counts UTF-16 units; the model counts characters,
which agrees on the ASCII fragment modelled here. -/
def fetchWebsiteText (body : HNode) : String :=
  (((collapseWs (textAll body)).toList.take 4000)).asString

/-- Modelled from the spec: the extraction result with the visible-text
semantics the spec describes (script and style excluded). -/
def fetchWebsiteTextSpec (body : HNode) : String :=
  (((collapseWs (textVisible body)).toList.take 4000)).asString

/-- The instruction text the scan route wraps around the page excerpt. -/
def scanPrompt (siteText : String) : String :=
  "Analyze this website like a mentor.\nList problems, UX issues, SEO risks, and improvements:\n\n" ++ siteText

/-- Result of one scan request: response and the store state after it
(the route performs no store call, so the state is threaded through). -/
structure ScanOutcome where
  resp : RouteResponse
  store : StoreState
deriving DecidableEq

/-- Embeds the scan route (routes/scan.js): validate url, fetchWebsite,
askKyra with user Mohit and empty memory on the analysis prompt, answer
with the analysis; any failure in the try block maps to 500 Website scan
failed. fetchResult is the outcome of the page fetch and parse, complete
the completion call on the assembled message list. -/
def scanRoute (store : StoreState) (urlField : Option String)
    (fetchResult : Except String HNode)
    (complete : List ApiMessage → Except String String) : ScanOutcome :=
  match urlField with
  | none => ⟨⟨400, .errorMsg "URL required"⟩, store⟩
  | some url =>
    if url = "" then ⟨⟨400, .errorMsg "URL required"⟩, store⟩
    else
      match fetchResult with
      | .error _ => ⟨⟨500, .errorMsg "Website scan failed"⟩, store⟩
      | .ok body =>
        match complete (askKyraMessages1 "Mohit" (scanPrompt (fetchWebsiteText body)) []) with
        | .error _ => ⟨⟨500, .errorMsg "Website scan failed"⟩, store⟩
        | .ok analysis => ⟨⟨200, .analysis analysis⟩, store⟩

/-- A row of the kyra_memory table of the single-file variant
(columns user_name, summary). -/
structure KyraRow where
  userName : String
  summary : String
deriving DecidableEq

/-- Result of one request to the single-file kyra route: response and the
kyra_memory table after it. -/
structure KyraOutcome where
  resp : RouteResponse
  kyraRows : List KyraRow
deriving DecidableEq

/-- Embeds the single-file kyra route: validate message (400 No message
provided), fetch the completion (api is the transport and JSON-parse
outcome; fetch resolves even on non-2xx, so error means a rejected fetch
or an unparseable body), extract the reply with the sentinel default,
insert one summary row of at most 500 characters of the reply, answer 200
with the reply. Any thrown failure maps to 500 Kyra core failed. The
supabase insert resolves without throwing; insertOk says whether the row
was stored. -/
def kyraRoute (rows : List KyraRow) (messageField : Option String)
    (api : Except String ApiResponse) (insertOk : Bool) : KyraOutcome :=
  match messageField with
  | none => ⟨⟨400, .errorMsg "No message provided"⟩, rows⟩
  | some message =>
    if message = "" then ⟨⟨400, .errorMsg "No message provided"⟩, rows⟩
    else
      match api with
      | .error _ => ⟨⟨500, .errorMsg "Kyra core failed"⟩, rows⟩
      | .ok data =>
        let reply := kyraExtract data
        let rows2 :=
          if insertOk then rows ++ [⟨"Mohit", (reply.toList.take 500).asString⟩] else rows
        ⟨⟨200, .reply reply⟩, rows2⟩

/-- A store with ten turns of user u, for concrete instantiations. -/
def demoStore : StoreState :=
  ⟨(List.range 10).map
      (fun i => ⟨"u", if i % 2 = 0 then "user" else "assistant", toString i, i⟩), 10⟩

/-- A page body whose body element contains a script child, for concrete
instantiations. -/
def demoBody : HNode :=
  .elem "body" [.text "hello ", .elem "script" [.text "var x=1;"], .text " world"]

/-- On a successful query, getMemory is the suffix of the last eight user
rows in insertion order, projected to role and content. -/
lemma getMemory_eq_drop (s : StoreState) (user : String) :
    getMemory s user true =
      ((userRows s user).drop ((userRows s user).length - 8)).map
        (fun t => (⟨t.role, t.content⟩ : PromptMessage)) := by
  unfold getMemory selectNewest
  simp only [if_true]
  rw [← List.map_reverse]
  congr 1
  rw [← List.rtake_eq_reverse_take_reverse]
  rfl

/-- The single-file extraction is the extracted non-empty content with the
sentinel as default. -/
lemma kyraExtract_eq_getD (r : ApiResponse) :
    kyraExtract r = (extractContent? r).getD "Kyra is thinking…" := by
  unfold kyraExtract extractContent?
  cases r.choices.head? with
  | none => rfl
  | some c =>
    obtain ⟨msg⟩ := c
    cases msg with
    | none => simp
    | some m =>
      obtain ⟨cont⟩ := m
      cases cont with
      | none => simp
      | some s => by_cases hs : s = "" <;> simp [hs]

/-- Every whitespace character the collapse pass emits is the single
space. -/
lemma collapseGo_ws_is_space :
    ∀ (cs : List Char) (b : Bool) (c : Char), c ∈ collapseGo cs b → isWs c → c = ' ' := by
  intro cs
  induction cs with
  | nil => intro b c hc; simp [collapseGo] at hc
  | cons x xs ih =>
    intro b c hc hws
    unfold collapseGo at hc
    by_cases hx : isWs x
    · simp only [hx, if_true] at hc
      cases b with
      | true => exact ih true c hc hws
      | false =>
        simp only [Bool.false_eq_true, if_false, List.mem_cons] at hc
        rcases hc with h | h
        · exact h
        · exact ih true c h hws
    · simp only [hx, Bool.false_eq_true, if_false, List.mem_cons] at hc
      rcases hc with h | h
      · subst h; simp [isWs] at hx; simp [isWs] at hws; tauto
      · exact ih false c h hws

/-- The collapse pass never emits two adjacent spaces, and after a
whitespace run in progress it does not begin with a space. -/
lemma collapseGo_chain :
    ∀ (cs : List Char),
      List.Chain' (fun a b => ¬(a = ' ' ∧ b = ' ')) (collapseGo cs true) ∧
      List.Chain' (fun a b => ¬(a = ' ' ∧ b = ' ')) (collapseGo cs false) ∧
      (collapseGo cs true).head? ≠ some ' ' := by
  intro cs
  induction cs with
  | nil => exact ⟨List.chain'_nil, List.chain'_nil, by simp [collapseGo]⟩
  | cons x xs ih =>
    obtain ⟨iht, ihf, ihh⟩ := ih
    by_cases hx : isWs x
    · refine ⟨by simpa [collapseGo, hx] using iht, ?_, by simpa [collapseGo, hx] using ihh⟩
      have : collapseGo (x :: xs) false = ' ' :: collapseGo xs true := by
        simp [collapseGo, hx]
      rw [this, List.chain'_cons']
      refine ⟨?_, iht⟩
      intro y hy
      intro ⟨_, hy'⟩
      apply ihh
      rw [← hy']
      exact hy
    · have hxs : x ≠ ' ' := by
        intro h; subst h; simp [isWs] at hx
      have heq : ∀ b, collapseGo (x :: xs) b = x :: collapseGo xs false := by
        intro b; simp [collapseGo, hx]
      have hchain : List.Chain' (fun a b => ¬(a = ' ' ∧ b = ' ')) (x :: collapseGo xs false) := by
        rw [List.chain'_cons']
        exact ⟨fun y _ ⟨h1, _⟩ => hxs h1, ihf⟩
      exact ⟨by rw [heq]; exact hchain, by rw [heq]; exact hchain,
        by rw [heq]; simpa using hxs⟩

/-- C1 (amended): for chat invocations served by the second askKyra
variant, the message list sent to the completion API is exactly one system
message first (the persona template with the user interpolated), then the
memory-window turns mapped one-to-one preserving role, content and order,
then exactly one trailing user message with the new input. The first
askKyra variant does not preserve roles (see the counterexample). -/
theorem claim1_context_assembly (u m : String) (w : List PromptMessage)
    (hw : ∀ t ∈ w, t.role ≠ "system") :
    (askKyraMessages2 u m w).head? = some ⟨"system", .str (kyraSystemPrompt2 u)⟩ ∧
    ((askKyraMessages2 u m w).filter (fun x => x.role = "system")).length = 1 ∧
    (askKyraMessages2 u m w).drop 1 =
      w.map (fun t => (⟨t.role, .str t.content⟩ : ApiMessage)) ++ [⟨"user", .str m⟩] ∧
    (askKyraMessages2 u m w).map (fun x => x.role) =
      "system" :: (w.map (fun t => t.role) ++ ["user"]) := by
  refine ⟨rfl, ?_, rfl, ?_⟩
  · have h0 : (w.map (fun t => (⟨t.role, .str t.content⟩ : ApiMessage))).filter
        (fun x => x.role = "system") = [] := by
      rw [List.filter_eq_nil_iff]
      intro a ha
      simp only [List.mem_map] at ha
      obtain ⟨t, ht, rfl⟩ := ha
      simpa using hw t ht
    simp [askKyraMessages2, List.filter_append, h0]
  · simp [askKyraMessages2, List.map_map, Function.comp_def]

set_option maxRecDepth 8192 in
/-- C1 counterexample: the first askKyra variant, on a window holding one
assistant turn, does not map the turn to an assistant prompt message with
its content; it coerces it to a user-role message carrying the record
itself, so the claimed message list is not produced. -/
theorem claim1_counterexample :
    askKyraMessages1 "Mohit" "hi" [⟨"assistant", "hello"⟩] ≠
      ⟨"system", .str (kyraSystemPrompt1 "Mohit")⟩ ::
        ([⟨"assistant", .str "hello"⟩] ++ [⟨"user", .str "hi"⟩]) := by
  decide

/-- C1 witness: a concrete two-turn window keeps its roles in order in the
assembled list of the second variant. -/
theorem claim1_witness :
    (askKyraMessages2 "Mohit" "hi" [⟨"user", "a"⟩, ⟨"assistant", "b"⟩]).map
        (fun x => x.role) =
      "system" :: (["user", "assistant"] ++ ["user"]) :=
  (claim1_context_assembly "Mohit" "hi" [⟨"user", "a"⟩, ⟨"assistant", "b"⟩]
    (by decide)).2.2.2

/-- C2: a successful retrieve returns at most eight turns, exactly the
suffix of the eight most recent turns of the user in oldest-first
(insertion, equivalently created_at) order; more than eight stored turns
give exactly eight, and no stored turns give the empty sequence. -/
theorem claim2_memory_window (s : StoreState) (user : String) :
    (getMemory s user true).length ≤ 8 ∧
    getMemory s user true =
      ((userRows s user).drop ((userRows s user).length - 8)).map
        (fun t => (⟨t.role, t.content⟩ : PromptMessage)) ∧
    (8 < (userRows s user).length → (getMemory s user true).length = 8) ∧
    (userRows s user = [] → getMemory s user true = []) := by
  have hd := getMemory_eq_drop s user
  refine ⟨?_, hd, ?_, ?_⟩
  · rw [hd]
    simp only [List.length_map, List.length_drop]
    omega
  · intro h8
    rw [hd]
    simp only [List.length_map, List.length_drop]
    omega
  · intro h0
    rw [hd, h0]
    rfl

/-- C2 witness: on a store with ten turns of user u, retrieve returns
exactly eight; on an empty store it returns the empty sequence. -/
theorem claim2_witness :
    (getMemory demoStore "u" true).length = 8 ∧
    getMemory ⟨[], 0⟩ "u" true = [] :=
  ⟨(claim2_memory_window demoStore "u").2.2.1 (by decide),
   (claim2_memory_window ⟨[], 0⟩ "u").2.2.2 (by decide)⟩

/-- C3 (amended): when the completion succeeds and the persist fails at
the store, chat still answers 200 with the reply and the store is left
unchanged; the persistence failure is silently discarded (the insert
result is never inspected, so nothing is logged or reported). -/
theorem claim3_persist_nonfatal (store : StoreState) (req : ChatRequest)
    (memOk : Bool) (reply m : String)
    (hm : req.messageField = some m) (hne : m ≠ "") :
    (chatRoute store req memOk (fun _ => .ok reply) false).resp =
      ⟨200, .reply reply⟩ ∧
    (chatRoute store req memOk (fun _ => .ok reply) false).store = store ∧
    (chatRoute store req memOk (fun _ => .ok reply) false).logged = [] := by
  unfold chatRoute
  rw [hm]
  simp [hne, saveMemory]

/-- C3 counterexample: on a concrete request with a failing persist after
a successful completion, the handler does answer 200 with the reply but
writes no log line, so the claimed reported-or-logged conjunct fails. -/
theorem claim3_counterexample :
    ¬ ((chatRoute ⟨[], 0⟩ ⟨none, some "hi"⟩ true
          (fun _ => .ok "hello") false).resp = ⟨200, .reply "hello"⟩ ∧
       (chatRoute ⟨[], 0⟩ ⟨none, some "hi"⟩ true
          (fun _ => .ok "hello") false).logged ≠ []) := by
  decide

/-- C3 witness: the amended statement at a concrete request. -/
theorem claim3_witness :
    (chatRoute ⟨[], 0⟩ ⟨none, some "hi"⟩ true (fun _ => .ok "hello") false).resp =
      ⟨200, .reply "hello"⟩ ∧
    (chatRoute ⟨[], 0⟩ ⟨none, some "hi"⟩ true (fun _ => .ok "hello") false).store =
      ⟨[], 0⟩ ∧
    (chatRoute ⟨[], 0⟩ ⟨none, some "hi"⟩ true (fun _ => .ok "hello") false).logged =
      [] :=
  claim3_persist_nonfatal ⟨[], 0⟩ ⟨none, some "hi"⟩ true "hello" "hi" rfl
    (by decide)

/-- C4 (amended): on a transport-successful response with no usable
choice content, only the single-file kyra extraction degrades to the
sentinel reply. The askKyra service clients never produce the sentinel on
such a response: they throw when the first choice or its message object is
missing, and when the message object is present they return its content
value unchanged — null or the empty string — without raising. -/
theorem claim4_empty_reply_policy (r : ApiResponse)
    (h : extractContent? r = none) :
    kyraExtract r = "Kyra is thinking…" ∧
    ((r.choices.head? = none ∨ (∃ c, r.choices.head? = some c ∧ c.message = none)) →
      ∃ e, extractReply r = .error e) ∧
    (∀ c m, r.choices.head? = some c → c.message = some m →
      extractReply r = .ok m.content ∧ (m.content = none ∨ m.content = some "")) ∧
    extractReply r ≠ .ok (some "Kyra is thinking…") := by
  have hk : kyraExtract r = "Kyra is thinking…" := by
    rw [kyraExtract_eq_getD, h]
    rfl
  have hrep : ∀ c m, r.choices.head? = some c → c.message = some m →
      extractReply r = .ok m.content := by
    intro c m hc hm
    unfold extractReply
    rw [hc]
    simp [hm]
  have hcontent : ∀ c m, r.choices.head? = some c → c.message = some m →
      m.content = none ∨ m.content = some "" := by
    intro c m hc hm
    unfold extractContent? at h
    rw [hc] at h
    simp only [hm] at h
    cases hmc : m.content with
    | none => exact Or.inl rfl
    | some s =>
      rw [hmc] at h
      by_cases hs : s = ""
      · subst hs
        exact Or.inr rfl
      · simp [hs] at h
  have herr : (r.choices.head? = none ∨
      (∃ c, r.choices.head? = some c ∧ c.message = none)) →
      ∃ e, extractReply r = .error e := by
    rintro (hc | ⟨c, hc, hm⟩)
    · refine ⟨"TypeError: choices[0] is undefined", ?_⟩
      unfold extractReply
      rw [hc]
    · refine ⟨"TypeError: message is undefined", ?_⟩
      unfold extractReply
      rw [hc]
      simp [hm]
  refine ⟨hk, herr, fun c m hc hm => ⟨hrep c m hc hm, hcontent c m hc hm⟩, ?_⟩
  intro habs
  cases hc : r.choices.head? with
  | none =>
    obtain ⟨e, he⟩ := herr (Or.inl hc)
    rw [he] at habs
    exact Except.noConfusion habs
  | some c =>
    cases hm : c.message with
    | none =>
      obtain ⟨e, he⟩ := herr (Or.inr ⟨c, hc, hm⟩)
      rw [he] at habs
      exact Except.noConfusion habs
    | some m =>
      rw [hrep c m hc hm] at habs
      injection habs with h2
      rcases hcontent c m hc hm with h0 | h0 <;> rw [h0] at h2
      · exact Option.noConfusion h2
      · injection h2 with h3
        exact absurd h3 (by decide)

/-- C4 counterexample: on a transport-successful response carrying no
choices, the askKyra completion client does not return the sentinel reply
(it throws instead), so the claim fails on the two askKyra variants. -/
theorem claim4_counterexample :
    extractReply ⟨[]⟩ ≠ .ok (some "Kyra is thinking…") := by
  intro h
  simp [extractReply] at h

/-- C4 witness: the amended statement at the empty-choices response,
where the askKyra clients throw, and at a present-message empty-content
response, where they pass the empty string through without raising and
without the sentinel. -/
theorem claim4_witness :
    kyraExtract ⟨[]⟩ = "Kyra is thinking…" ∧
    (∃ e, extractReply ⟨[]⟩ = .error e) ∧
    kyraExtract ⟨[⟨some ⟨some ""⟩⟩]⟩ = "Kyra is thinking…" ∧
    extractReply ⟨[⟨some ⟨some ""⟩⟩]⟩ = .ok (some "") ∧
    extractReply ⟨[⟨some ⟨some ""⟩⟩]⟩ ≠ .ok (some "Kyra is thinking…") := by
  have h0 := claim4_empty_reply_policy ⟨[]⟩ (by decide)
  have h1 := claim4_empty_reply_policy ⟨[⟨some ⟨some ""⟩⟩]⟩ (by decide)
  exact ⟨h0.1, h0.2.1 (Or.inl rfl), h1.1,
    (h1.2.2.1 ⟨some ⟨some ""⟩⟩ ⟨some ""⟩ rfl rfl).1, h1.2.2.2⟩

/-- C5 (amended): on a successful fetch, the extractor returns the
concatenated text of every descendant node of the document body — script
and style text included, since the cheerio text call does not exclude
them — with every whitespace run collapsed to one space and the result
truncated to the first 4000 characters, hence of length at most 4000 and
free of adjacent double spaces and of non-space whitespace. -/
theorem claim5_page_text (body : HNode) :
    fetchWebsiteText body =
      ((collapseWs (textAll body)).toList.take 4000).asString ∧
    (fetchWebsiteText body).length ≤ 4000 ∧
    (∀ c ∈ (fetchWebsiteText body).toList, isWs c → c = ' ') ∧
    List.Chain' (fun a b => ¬(a = ' ' ∧ b = ' '))
      (fetchWebsiteText body).toList := by
  refine ⟨rfl, ?_, ?_, ?_⟩
  · show ((collapseWs (textAll body)).toList.take 4000).asString.length ≤ 4000
    have : ((collapseWs (textAll body)).toList.take 4000).asString.length =
        ((collapseWs (textAll body)).toList.take 4000).length := rfl
    rw [this]
    exact le_trans (List.length_take_le 4000 _) (le_refl 4000)
  · intro c hc hws
    have hc' : c ∈ (collapseWs (textAll body)).toList :=
      List.take_subset 4000 _ hc
    exact collapseGo_ws_is_space (textAll body).toList false c hc' hws
  · have hch := (collapseGo_chain (textAll body).toList).2.1
    exact List.Chain'.take hch 4000

/-- C5 counterexample: on a body whose body element contains a script
child, the extractor keeps the script text, so it differs from the
spec-modelled extraction that excludes script and style nodes. -/
theorem claim5_counterexample :
    fetchWebsiteText demoBody ≠ fetchWebsiteTextSpec demoBody := by
  decide

/-- C5 witness: the amended statement at the concrete demo body. -/
theorem claim5_witness :
    (fetchWebsiteText demoBody).length ≤ 4000 ∧
    List.Chain' (fun a b => ¬(a = ' ' ∧ b = ' '))
      (fetchWebsiteText demoBody).toList :=
  ⟨(claim5_page_text demoBody).2.1, (claim5_page_text demoBody).2.2.2⟩

/-- C6 (amended): a chat request without a non-empty message gets 400 with
error Message required, and a scan request without a url gets 400 with
error URL required; the single-file kyra route, on a missing or empty
message, answers 400 with error No message provided instead of Message
required. -/
theorem claim6_validation_errors (store : StoreState) (memOk persistOk : Bool)
    (complete : List ApiMessage → Except String String) (u : Option String)
    (rows : List KyraRow) (api : Except String ApiResponse) (insertOk : Bool)
    (fr : Except String HNode) :
    (chatRoute store ⟨u, none⟩ memOk complete persistOk).resp =
      ⟨400, .errorMsg "Message required"⟩ ∧
    (chatRoute store ⟨u, some ""⟩ memOk complete persistOk).resp =
      ⟨400, .errorMsg "Message required"⟩ ∧
    (kyraRoute rows none api insertOk).resp =
      ⟨400, .errorMsg "No message provided"⟩ ∧
    (kyraRoute rows (some "") api insertOk).resp =
      ⟨400, .errorMsg "No message provided"⟩ ∧
    (scanRoute store none fr complete).resp =
      ⟨400, .errorMsg "URL required"⟩ := by
  refine ⟨rfl, ?_, rfl, ?_, rfl⟩
  · simp [chatRoute]
  · simp [kyraRoute]

/-- C6 counterexample: on the single-file kyra route a missing message is
answered with body error No message provided, not the claimed Message
required. -/
theorem claim6_counterexample :
    (kyraRoute [] none (Except.error "boom") true).resp ≠
      ⟨400, .errorMsg "Message required"⟩ := by
  decide

/-- C7: any failure thrown inside the chat try block is answered 500 with
the fixed body error Kyra thinking failed, and any failure of the scan
pipeline (page fetch or completion) is answered 500 with the fixed body
error Website scan failed; the bodies are constants, so no detail of the
underlying error reaches the caller. -/
theorem claim7_generic_errors (store : StoreState) (req : ChatRequest)
    (memOk persistOk : Bool) (m : String)
    (hm : req.messageField = some m) (hne : m ≠ "")
    (e : String) (url : String) (hu : url ≠ "") (body : HNode) (e2 e3 : String)
    (complete : List ApiMessage → Except String String) :
    (chatRoute store req memOk (fun _ => .error e) persistOk).resp =
      ⟨500, .errorMsg "Kyra thinking failed"⟩ ∧
    (scanRoute store (some url) (.error e2) complete).resp =
      ⟨500, .errorMsg "Website scan failed"⟩ ∧
    (scanRoute store (some url) (.ok body) (fun _ => .error e3)).resp =
      ⟨500, .errorMsg "Website scan failed"⟩ := by
  refine ⟨?_, ?_, ?_⟩
  · unfold chatRoute
    rw [hm]
    simp [hne]
  · simp [scanRoute, hu]
  · simp [scanRoute, hu]

/-- C7 witness: the statement at concrete requests and failure values. -/
theorem claim7_witness :
    (chatRoute ⟨[], 0⟩ ⟨none, some "hi"⟩ true
        (fun _ => .error "secret stack trace") true).resp =
      ⟨500, .errorMsg "Kyra thinking failed"⟩ ∧
    (scanRoute ⟨[], 0⟩ (some "http://x") (.error "dns down")
        (fun _ => .ok "a")).resp =
      ⟨500, .errorMsg "Website scan failed"⟩ ∧
    (scanRoute ⟨[], 0⟩ (some "http://x") (.ok demoBody)
        (fun _ => .error "401 unauthorized")).resp =
      ⟨500, .errorMsg "Website scan failed"⟩ :=
  claim7_generic_errors ⟨[], 0⟩ ⟨none, some "hi"⟩ true true "hi" rfl (by decide)
    "secret stack trace" "http://x" (by decide) demoBody "dns down"
    "401 unauthorized" (fun _ => .ok "a")

/-- C8 (amended): each successful saveMemory persist after a completed
chat exchange appends exactly two turns for the request user — first the
user turn with the input text, then the assistant turn with the reply —
each stamped with the current store time, leaving every existing turn in
place and in order; the single-file kyra variant instead inserts a single
summary row (see the counterexample). -/
theorem claim8_persist_turns (store : StoreState) (req : ChatRequest)
    (memOk : Bool) (m reply : String)
    (hm : req.messageField = some m) (hne : m ≠ "") :
    (chatRoute store req memOk (fun _ => .ok reply) true).store.rows =
      store.rows ++
        [⟨req.userField.getD "Mohit", "user", m, store.clock⟩,
         ⟨req.userField.getD "Mohit", "assistant", reply, store.clock + 1⟩] := by
  unfold chatRoute
  rw [hm]
  simp [hne, saveMemory]

/-- C8 counterexample: the single-file kyra handler persists one summary
row after a completed exchange, not two role-tagged turns, so the persisted
row count is one rather than two. -/
theorem claim8_counterexample :
    ¬ ((kyraRoute [] (some "hi")
          (Except.ok ⟨[⟨some ⟨some "hello"⟩⟩]⟩) true).kyraRows.length = 2) := by
  decide

/-- C8 witness: the amended statement at a concrete exchange. -/
theorem claim8_witness :
    (chatRoute ⟨[], 5⟩ ⟨some "ravi", some "hi"⟩ true
        (fun _ => .ok "hello") true).store.rows =
      [] ++ [⟨"ravi", "user", "hi", 5⟩, ⟨"ravi", "assistant", "hello", 6⟩] :=
  claim8_persist_turns ⟨[], 5⟩ ⟨some "ravi", some "hi"⟩ true "hi" "hello" rfl
    (by decide)

/-- C9: retrieve is a total function of the query outcome — a failed store
query yields the empty window, which is exactly the window of a user with
no stored turns, so the chat pipeline cannot distinguish a retrieval
failure from an empty history. -/
theorem claim9_retrieve_never_fails (s s2 : StoreState) (user u2 : String)
    (h : userRows s2 u2 = []) :
    getMemory s user false = [] ∧
    getMemory s2 u2 true = [] ∧
    getMemory s user false = getMemory s2 u2 true := by
  have h2 : getMemory s2 u2 true = [] := by
    rw [getMemory_eq_drop, h]
    rfl
  exact ⟨rfl, h2, by rw [h2]; rfl⟩

/-- C9 witness: a failed query on a populated store equals the successful
query of a user with no turns. -/
theorem claim9_witness :
    getMemory demoStore "u" false = [] ∧
    getMemory ⟨[], 0⟩ "u" true = [] ∧
    getMemory demoStore "u" false = getMemory ⟨[], 0⟩ "u" true :=
  claim9_retrieve_never_fails demoStore ⟨[], 0⟩ "u" "u" (by decide)

/-- C10: the scan route performs no store call: whatever the request body,
the fetch outcome and the completion outcome, the conversation store after
a scan request is the store it started with. -/
theorem claim10_scan_frame (store : StoreState) (urlField : Option String)
    (fr : Except String HNode)
    (complete : List ApiMessage → Except String String) :
    (scanRoute store urlField fr complete).store = store := by
  cases urlField with
  | none => rfl
  | some url =>
    by_cases hu : url = ""
    · simp [scanRoute, hu]
    · cases fr with
      | error e => simp [scanRoute, hu]
      | ok body =>
        cases hc : complete
            (askKyraMessages1 "Mohit" (scanPrompt (fetchWebsiteText body)) []) with
        | error e => simp [scanRoute, hu, hc]
        | ok a => simp [scanRoute, hu, hc]

end Kyra
